import Mathlib

/-!
Shallow embedding of the pvload/pvsave lexer and recursive-descent parser
(pvtoken.py, pvlexer.py, pvparser.py) of the epicsutil repository.

The lexer splits a line of text into tokens using an ordered table of
patterns; each pattern of the Python source (a regular expression) is
embedded as a dedicated matching function returning the length matched at
the start of the input, faithful to the leftmost, first-pattern-wins
semantics of the source table.  The parser is embedded as a state-passing
error monad: the parser state carries the lexer state, the remaining input
lines, the one-token lookahead cell, the per-statement scratch variables
and the ordered list of printed diagnostics; a raised PvSyntaxError is the
error branch of the monad.
-/

-- ==========================================================================
-- Token ids (pvlexer.py, module constants)
-- ==========================================================================

def TOKEN_NONE : Int := 0
def TOKEN_EOF : Int := 1
def TOKEN_WHITESPACE : Int := 2
def TOKEN_COMMENT : Int := 3
def TOKEN_NUMBER : Int := 10
def TOKEN_INTEGER : Int := 11
def TOKEN_FLOAT : Int := 12
def TOKEN_STRING : Int := 13
def TOKEN_PVNAME : Int := 14
def TOKEN_TYPE : Int := 20
def TOKEN_UNIT : Int := 21
def TOKEN_GROUP : Int := 22
def TOKEN_SLEEP : Int := 23
def TOKEN_SEMICOLON : Int := 30
def TOKEN_COMMA : Int := 31
def TOKEN_EQUALS : Int := 32
def TOKEN_TIMES : Int := 33
def TOKEN_DIVIDED : Int := 34
def TOKEN_PERCENT : Int := 35
def TOKEN_LEFT_BRACE : Int := 40
def TOKEN_RIGHT_BRACE : Int := 41
def TOKEN_LEFT_BRACKET : Int := 42
def TOKEN_RIGHT_BRACKET : Int := 43
def TOKEN_ERROR : Int := -1

-- ==========================================================================
-- PvToken (pvtoken.py)
-- ==========================================================================

/-- A lexical token: id plus raw matched text (class PvToken). -/
structure PvToken where
  id : Int
  value : String
deriving DecidableEq, Repr

/-- PvToken.match: check whether a token has a certain id. -/
def PvToken.matchId (t : PvToken) (tokenId : Int) : Bool := t.id = tokenId

/-- PvToken.is_in: check whether the token id is in a list of ids. -/
def PvToken.isIn (t : PvToken) (ids : List Int) : Bool := t.id ∈ ids

/-- Python `token in [id1, id2, ...]` where `token` is a PvToken object and
the list holds int constants (pvparser.py, pv_single_scale).  List
membership uses `==`; PvToken defines no `__eq__`, so the default identity
comparison applies and an object is never equal to an int: the test is
always False (contrast PvToken.is_in, which compares `token.id`). -/
def pyObjInIntList (_t : PvToken) (_ids : List Int) : Bool := false

-- ==========================================================================
-- Python str/int/float helpers used by the source
-- ==========================================================================

/-- Characters matched by `\s` in the source regular expressions and
stripped by Python str.strip(). -/
def pyIsSpace (c : Char) : Bool :=
  c = ' ' ∨ c = '\t' ∨ c = '\n' ∨ c = '\r' ∨ c = '\x0b' ∨ c = '\x0c'

/-- Python str.strip(): drop whitespace from both ends. -/
def pyStripChars (l : List Char) : List Char :=
  ((l.dropWhile pyIsSpace).reverse.dropWhile pyIsSpace).reverse

/-- Python str.strip() on a String. -/
def pyStrip (s : String) : String := String.mk (pyStripChars s.data)

def isDigitChar (c : Char) : Bool := '0' ≤ c ∧ c ≤ '9'

def isHexDigitChar (c : Char) : Bool :=
  ('0' ≤ c ∧ c ≤ '9') ∨ ('a' ≤ c ∧ c ≤ 'f') ∨ ('A' ≤ c ∧ c ≤ 'F')

/-- `\w`: ASCII word character of the source regular expressions. -/
def isWordChar (c : Char) : Bool :=
  ('a' ≤ c ∧ c ≤ 'z') ∨ ('A' ≤ c ∧ c ≤ 'Z') ∨ ('0' ≤ c ∧ c ≤ '9') ∨ c = '_'

/-- Character class of the name pattern: `[\w:\(\)\$]`. -/
def isNameChar (c : Char) : Bool :=
  isWordChar c ∨ c = ':' ∨ c = '(' ∨ c = ')' ∨ c = '$'

def digitsToNat (l : List Char) : Nat :=
  l.foldl (fun a c => a * 10 + (c.toNat - '0'.toNat)) 0

/-- Split a leading sign character: returns (negative, rest). -/
def pySplitSign (cs : List Char) : Bool × List Char :=
  match cs with
  | c :: r => if c = '-' then (true, r) else if c = '+' then (false, r) else (false, cs)
  | [] => (false, cs)

/-- Python int(str) in base 10: strip whitespace, optional sign, then a
nonempty run of decimal digits; anything else raises ValueError (none). -/
def pyIntVal (s : String) : Option Int :=
  let p := pySplitSign (pyStripChars s.data)
  if p.2 ≠ [] ∧ p.2.all isDigitChar then
    some (if p.1 then -(digitsToNat p.2 : Int) else (digitsToNat p.2 : Int))
  else none

/-- Whether Python int(str) succeeds. -/
def pyIntOk (s : String) : Bool := (pyIntVal s).isSome

/-- Exponent part accepted by Python float(): empty, or e/E, optional
sign, nonempty digit run reaching the end of the string. -/
def pyFloatExp (cs : List Char) : Bool :=
  match cs with
  | [] => true
  | c :: rest =>
    if c = 'e' ∨ c = 'E' then
      let rest2 := match rest with
        | d :: r2 => if d = '-' ∨ d = '+' then r2 else rest
        | [] => rest
      let dd := (rest2.takeWhile isDigitChar).length
      decide (dd > 0) && decide (rest2.drop dd = ([] : List Char))
    else false

/-- Mantissa accepted by Python float() after the optional sign:
`digits [. digits*]` or `. digits+`, followed by an optional exponent. -/
def pyFloatBody (cs : List Char) : Bool :=
  let d := (cs.takeWhile isDigitChar).length
  if d > 0 then
    match cs.drop d with
    | '.' :: r2 =>
      let f := (r2.takeWhile isDigitChar).length
      pyFloatExp (r2.drop f)
    | rest => pyFloatExp rest
  else
    match cs with
    | '.' :: r2 =>
      let f := (r2.takeWhile isDigitChar).length
      decide (f > 0) && pyFloatExp (r2.drop f)
    | _ => false

/-- Whether Python float(str) succeeds: strip whitespace, optional sign,
then inf/infinity/nan (any case) or a decimal mantissa with optional
exponent. -/
def pyFloatOk (s : String) : Bool :=
  let ds := (pySplitSign (pyStripChars s.data)).2
  let low := ds.map Char.toLower
  if low = "inf".data ∨ low = "infinity".data ∨ low = "nan".data then true
  else pyFloatBody ds

-- ==========================================================================
-- Lexer pattern matchers (pvlexer.py, lexer_patterns)
-- Each embeds one regular expression of the ordered table: given the rest
-- of the line it returns the number of characters matched at the front,
-- or none if the pattern does not match there.
-- ==========================================================================

/-- `[\s]+` -/
def matchWs (cs : List Char) : Option Nat :=
  let n := (cs.takeWhile pyIsSpace).length
  if n = 0 then none else some n

/-- Body of the hexadecimal pattern after the optional sign:
`0[xX][\da-fA-F]+`. -/
def matchHexBody (cs : List Char) : Option Nat :=
  match cs with
  | c0 :: x :: rest =>
    if c0 = '0' ∧ (x = 'x' ∨ x = 'X') then
      let d := (rest.takeWhile isHexDigitChar).length
      if d > 0 then some (2 + d) else none
    else none
  | _ => none

/-- `-?0[xX][\da-fA-F]+` -/
def matchHex (cs : List Char) : Option Nat :=
  match cs with
  | c :: _ => if c = '-' then (matchHexBody cs.tail).map (· + 1) else matchHexBody cs
  | [] => none

/-- Greedy run of decimal digits. -/
def digitRun (cs : List Char) : Nat := (cs.takeWhile isDigitChar).length

/-- `(\d+([.]\d*)?|[.,]\d+)`: the mantissa alternatives of the number
pattern. -/
def matchNumBody (cs : List Char) : Option Nat :=
  let d := digitRun cs
  if d > 0 then
    match cs.drop d with
    | '.' :: rest => some (d + 1 + digitRun rest)
    | _ => some d
  else
    match cs with
    | c :: rest =>
      if (c = '.' ∨ c = ',') ∧ digitRun rest > 0 then some (1 + digitRun rest)
      else none
    | [] => none

/-- `([eE][-+]?\d+)?`: optional exponent; matches zero characters when the
full exponent is not present. -/
def matchNumExp (cs : List Char) : Nat :=
  match cs with
  | c :: rest =>
    if c = 'e' ∨ c = 'E' then
      let p := match rest with
        | d :: r2 => if d = '-' ∨ d = '+' then (1, r2) else (0, rest)
        | [] => (0, rest)
      let dd := digitRun p.2
      if dd > 0 then 1 + p.1 + dd else 0
    else 0
  | [] => 0

/-- `[-+]?(\d+([.]\d*)?|[.,]\d+)([eE][-+]?\d+)?` -/
def matchNumber (cs : List Char) : Option Nat :=
  let p := match cs with
    | c :: rest => if c = '-' ∨ c = '+' then (1, rest) else (0, cs)
    | [] => (0, cs)
  match matchNumBody p.2 with
  | none => none
  | some bl => some (p.1 + bl + matchNumExp (p.2.drop bl))

/-- Index of the last occurrence of a character in a list. -/
def lastIdxOf (c : Char) (l : List Char) : Option Nat :=
  match l.reverse.findIdx? (· = c) with
  | some k => some (l.length - 1 - k)
  | none => none

/-- `".+"`: greedy, so the match extends to the last quote of the line
with at least one character in between. -/
def matchQuoted (cs : List Char) : Option Nat :=
  match cs with
  | '"' :: rest =>
    match lastIdxOf '"' rest with
    | some p => if p ≥ 1 then some (p + 2) else none
    | none => none
  | _ => none

/-- Alternation of literal words, tried left to right (no word boundary):
the first alternative that is a prefix of the input wins. -/
def matchAlts (alts : List (List Char)) (cs : List Char) : Option Nat :=
  match alts with
  | [] => none
  | a :: rest => if a.isPrefixOf cs then some a.length else matchAlts rest cs

/-- `[\w:\(\)\$]+(\.[\w]+)?`: the generic name pattern. -/
def matchPvName (cs : List Char) : Option Nat :=
  let w := (cs.takeWhile isNameChar).length
  if w = 0 then none
  else
    match cs.drop w with
    | '.' :: rest =>
      let f := (rest.takeWhile isWordChar).length
      if f > 0 then some (w + 1 + f) else some w
    | _ => some w

/-- Single literal character pattern. -/
def matchLit (c : Char) (cs : List Char) : Option Nat :=
  match cs with
  | d :: _ => if d = c then some 1 else none
  | [] => none

/-- The ordered pattern table (pvlexer.py, lexer_patterns).  The order
matters: first match at the current scan position wins. -/
def lexerPatterns : List ((List Char → Option Nat) × Int) :=
  [ (matchWs, TOKEN_WHITESPACE),
    (matchHex, TOKEN_INTEGER),
    (matchNumber, TOKEN_NUMBER),
    (matchQuoted, TOKEN_STRING),
    (matchAlts [ "string".data, "int".data, "short".data, "float".data,
                 "enum".data, "char".data, "long".data, "double".data ], TOKEN_TYPE),
    (matchAlts [ "arcsec".data, "deg".data ], TOKEN_UNIT),
    (matchAlts [ "microns".data, "um".data ], TOKEN_UNIT),
    (matchAlts [ "millimeters".data, "millimetres".data, "mm".data ], TOKEN_UNIT),
    (matchAlts [ "meters".data, "metres".data, "m".data ], TOKEN_UNIT),
    (matchAlts [ "group".data ], TOKEN_GROUP),
    (matchAlts [ "sleep".data ], TOKEN_SLEEP),
    (matchPvName, TOKEN_PVNAME),
    (matchLit '#', TOKEN_COMMENT),
    (matchLit ';', TOKEN_SEMICOLON),
    (matchLit '=', TOKEN_EQUALS),
    (matchLit ',', TOKEN_COMMA),
    (matchLit '*', TOKEN_TIMES),
    (matchLit '/', TOKEN_DIVIDED),
    (matchLit '%', TOKEN_PERCENT),
    (matchLit '\x7b', TOKEN_LEFT_BRACE),
    (matchLit '\x7d', TOKEN_RIGHT_BRACE),
    (matchLit '[', TOKEN_LEFT_BRACKET),
    (matchLit ']', TOKEN_RIGHT_BRACKET) ]

/-- Try the patterns in table order at the current position; return the
matched length and token id of the first pattern that matches. -/
def firstMatch (pats : List ((List Char → Option Nat) × Int)) (cs : List Char) :
    Option (Nat × Int) :=
  match pats with
  | [] => none
  | (m, tid) :: rest =>
    match m cs with
    | some n => some (n, tid)
    | none => firstMatch rest cs

/-- The scanning loop of _get_token_list: at each position take the first
matching pattern; skip whitespace; stop at a comment (rest of the line
dropped); reclassify a NUMBER as INTEGER when Python int() accepts the
matched text, FLOAT otherwise; when nothing matches, emit a single ERROR
token holding the offending character and stop.  Every pattern consumes at
least one character, so a fuel of the line length suffices. -/
def tokenizeFrom : Nat → List Char → List PvToken
  | 0, _ => []
  | _ + 1, [] => []
  | fuel + 1, c :: rest =>
    match firstMatch lexerPatterns (c :: rest) with
    | some (n, tid) =>
      if tid = TOKEN_COMMENT then []
      else if tid = TOKEN_WHITESPACE then tokenizeFrom fuel ((c :: rest).drop n)
      else
        let text := String.mk ((c :: rest).take n)
        let tid2 :=
          if tid = TOKEN_NUMBER then
            (if pyIntOk text then TOKEN_INTEGER else TOKEN_FLOAT)
          else tid
        PvToken.mk tid2 text :: tokenizeFrom fuel ((c :: rest).drop n)
    | none => [PvToken.mk TOKEN_ERROR (String.mk ((c :: rest).take 1))]

/-- PvLexer._get_token_list: split a line into tokens. -/
def getTokenList (line : String) : List PvToken :=
  tokenizeFrom line.data.length line.data

-- ==========================================================================
-- Lexer state and next_token (pvlexer.py, class PvLexer)
-- ==========================================================================

/-- Mutable state of a PvLexer: buffered tokens of the current line, the
line counter and the raw text of the last tokenized line. -/
structure LexState where
  tokenList : List PvToken
  lineNumber : Nat
  lastLine : String
deriving DecidableEq, Repr

/-- The line-skipping loop of next_token: read successive lines, counting
each one, until a line whose stripped text is nonempty and does not start
with `#`; return it with the remaining input, or none when the stream is
exhausted (StopIteration). -/
def fetchLine : List String → Nat → (Option (String × List String)) × Nat
  | [], n => (none, n)
  | l :: rest, n =>
    let t := pyStrip l
    if t.data ≠ [] ∧ ¬ (t.data.head? = some '#') then (some (t, rest), n + 1)
    else fetchLine rest (n + 1)

/-- Pop the first buffered token (Python token_list.pop(0)).  The empty
case never occurs in the source: the buffer is refilled before popping and
never refilled to an empty list. -/
def popFirst : List PvToken → PvToken × List PvToken
  | [] => (PvToken.mk TOKEN_ERROR "", [])
  | t :: ts => (t, ts)

/-- PvLexer.next_token: if the buffer is empty, fetch the next relevant
line and tokenize it (or buffer a single EOF token when the stream is
exhausted), then pop and return the first buffered token.  Returns the
token, the new lexer state and the remaining input lines. -/
def nextToken (lex : LexState) (input : List String) :
    PvToken × LexState × List String :=
  if lex.tokenList.isEmpty then
    match fetchLine input lex.lineNumber with
    | (some (line, rest), n) =>
      let p := popFirst (getTokenList line)
      (p.1, { tokenList := p.2, lineNumber := n, lastLine := line }, rest)
    | (none, n) =>
      (PvToken.mk TOKEN_EOF "", { lex with tokenList := [], lineNumber := n }, [])
  else
    let p := popFirst lex.tokenList
    (p.1, { lex with tokenList := p.2 }, input)

/-- PvLexer.flush: throw away the buffered tokens of the current line. -/
def lexFlush (lex : LexState) : LexState := { lex with tokenList := [] }

/-- The n-th successive call of next_token (first call at n = 0), each
call threading the lexer state and remaining input of the previous one. -/
def callChain : LexState → List String → Nat → PvToken × LexState × List String
  | lex, inp, 0 => nextToken lex inp
  | lex, inp, n + 1 =>
    let r := nextToken lex inp
    callChain r.2.1 r.2.2 n

-- ==========================================================================
-- Parser types and primitives (pvparser.py)
-- ==========================================================================

def TYPE_NONE : Nat := 0
def TYPE_INTEGER : Nat := 1
def TYPE_FLOAT : Nat := 2
def TYPE_STRING : Nat := 3

/-- The two kinds of exceptions the parser code can raise: PvSyntaxError
(raised by pv_error, caught at the top-level file loop) and ValueError
(raised by a bare int() conversion, not caught anywhere). -/
inductive PvErr where
  | synErr : String → PvErr
  | valErr : String → PvErr
deriving DecidableEq, Repr

/-- Mutable state of a PvParser: the lexer, the remaining input lines of
the open file, the file name, the one-token lookahead cell (TOKEN_NONE
means consumed/empty), the per-statement scratch variables, and the
ordered list of messages printed so far. -/
structure PState where
  lex : LexState
  input : List String
  fileName : String
  token : PvToken
  singleDataType : Nat
  singleName : String
  singleCount : Int
  singleValueList : List String
  singleIndexList : List Int
  output : List String
deriving DecidableEq, Repr

/-- State-passing error monad for the parser: a computation transforms the
parser state and either returns a value or raises.  A raised exception
carries the state at raise time, because the Python object keeps all
mutations made before the raise (the top-level recovery depends on the
lines and tokens already consumed). -/
def PvM (α : Type) : Type := PState → Except (PvErr × PState) (α × PState)

instance : Monad PvM where
  pure a := fun s => .ok (a, s)
  bind m f := fun s =>
    match m s with
    | .ok (a, s2) => f a s2
    | .error e => .error e

def getPState : PvM PState := fun s => .ok (s, s)

def modifyPS (f : PState → PState) : PvM Unit := fun s => .ok ((), f s)

/-- Message built by PvParser.pv_error before raising. -/
def pvErrorMsg (s : PState) (text : String) : String :=
  if text = "" then
    "Error: at \x27" ++ s.token.value ++ "\x27, file " ++ s.fileName ++
      ", line " ++ toString s.lex.lineNumber ++ "\n>> " ++ s.lex.lastLine
  else
    "Error: at \x27" ++ s.token.value ++ "\x27, file " ++ s.fileName ++
      ", line " ++ toString s.lex.lineNumber ++ " -> " ++ text ++
      "\n>> " ++ s.lex.lastLine

/-- PvParser.pv_error: raise PvSyntaxError with the formatted message. -/
def pvError (text : String) : PvM α := fun s =>
  .error (.synErr (pvErrorMsg s text), s)

/-- Message built by PvParser.pv_warning. -/
def pvWarningMsg (fname : String) (n : Nat) (text line : String) : String :=
  if text = "" then
    "Warning: " ++ fname ++ ", line " ++ toString n ++ "\n>> " ++ line
  else
    "Warning: file " ++ fname ++ ", line " ++ toString n ++ " -> " ++ text ++
      "\n>> " ++ line

/-- PvParser.pv_warning: print (append) the warning message. -/
def pvWarning (text : String) : PvM Unit := fun s =>
  .ok ((), { s with output :=
    s.output ++ [pvWarningMsg s.fileName s.lex.lineNumber text s.lex.lastLine] })

/-- PvParser.get_token: fetch a token from the lexer only when the
lookahead cell is empty; trap lexer ERROR tokens by raising. -/
def getToken : PvM PvToken := fun s =>
  if s.token.id = TOKEN_NONE then
    let r := nextToken s.lex s.input
    let s2 := { s with lex := r.2.1, input := r.2.2, token := r.1 }
    if r.1.id = TOKEN_ERROR then pvError "" s2
    else .ok (r.1, s2)
  else .ok (s.token, s)

/-- PvParser.flush_token: mark the lookahead cell consumed. -/
def flushToken : PvM Unit :=
  modifyPS (fun s => { s with token := PvToken.mk TOKEN_NONE "none" })

/-- PvParser.flush_and_get_token. -/
def flushAndGetToken : PvM PvToken := do
  flushToken
  getToken

/-- PvParser.clear_single: reset the per-statement scratch variables. -/
def clearSingle : PvM Unit :=
  modifyPS (fun s => { s with
    singleDataType := TYPE_NONE, singleName := "", singleCount := 1,
    singleValueList := [], singleIndexList := [] })

/-- PvParser.map_type: map the pvload type keyword to a basic type. -/
def mapType (t : PvToken) : Nat :=
  if t.value = "string" ∨ t.value = "char" ∨ t.value = "enum" then TYPE_STRING
  else if t.value = "short" ∨ t.value = "int" ∨ t.value = "long" then TYPE_INTEGER
  else if t.value = "float" ∨ t.value = "double" then TYPE_FLOAT
  else TYPE_NONE

/-- A bare Python int() conversion: raises ValueError (not PvSyntaxError)
when the text is not a base-10 integer. -/
def pyIntM (str : String) : PvM Int := fun s =>
  match pyIntVal str with
  | some v => .ok (v, s)
  | none => .error (.valErr ("invalid literal for int: " ++ str), s)

/-- The warning texts issued by PvParser.check_single, in emission order.
The integer and float loops warn at the first value rejected by int()
resp. float() and break; the string loop warns for each value at each
successful int() parse and again at each successful float() parse, with
no break. -/
def checkSingleMsgs (st : PState) : List String :=
  (if st.singleCount ≠ (st.singleValueList.length : Int) then
     ["list of values does not match array size"] else [])
  ++ (if st.singleIndexList.length ≠ st.singleIndexList.dedup.length then
     ["repeated indices"] else [])
  ++ (if 0 < st.singleIndexList.length ∧
        st.singleValueList.length ≠ st.singleIndexList.length then
     ["missing indices?"] else [])
  ++ (if st.singleDataType = TYPE_NONE then ["type not defined"]
      else if st.singleDataType = TYPE_INTEGER then
        (if (st.singleValueList.find? (fun v => ! pyIntOk v)).isSome then
          ["type mismatch"] else [])
      else if st.singleDataType = TYPE_FLOAT then
        (if (st.singleValueList.find? (fun v => ! pyFloatOk v)).isSome then
          ["type mismatch"] else [])
      else if st.singleDataType = TYPE_STRING then
        st.singleValueList.flatMap (fun v =>
          (if pyIntOk v then ["type mismatch"] else [])
          ++ (if pyFloatOk v then ["type mismatch"] else []))
      else [])

/-- PvParser.check_single: consistency checks of a parsed single
statement (array size, indices, declared type vs values); every warning
goes through pv_warning, which formats it with the current file name,
line number and line text (all constant during the check). -/
def checkSingle : PvM Unit := fun st =>
  let msgs := (checkSingleMsgs st).map
    (fun t => pvWarningMsg st.fileName st.lex.lineNumber t st.lex.lastLine)
  .ok ((), { st with output := st.output ++ msgs })

-- ==========================================================================
-- Recursive-descent productions (pvparser.py)
-- ==========================================================================

/-- PvParser.pv_single_start: optional `%`. -/
def pvSingleStart : PvM Bool := do
  let t ← getToken
  if t.id = TOKEN_PERCENT then flushToken
  pure true

/-- PvParser.pv_single_type: optional type keyword. -/
def pvSingleType : PvM Bool := do
  let t ← getToken
  if t.id = TOKEN_TYPE then
    modifyPS (fun s => { s with singleDataType := mapType t })
    flushToken
  pure true

/-- PvParser.pv_single_name: mandatory process-variable name. -/
def pvSingleName : PvM Bool := do
  let t ← getToken
  if t.id = TOKEN_PVNAME then
    modifyPS (fun s => { s with singleName := t.value })
    flushToken
    pure true
  else pure false

/-- PvParser.pv_single_index_or_count: optional `[ INTEGER ]`.  The
int() conversion happens before the closing bracket is checked. -/
def pvSingleIndexOrCount : PvM (Option Int) := do
  let t ← getToken
  if t.id = TOKEN_LEFT_BRACKET then
    let t2 ← flushAndGetToken
    if t2.id = TOKEN_INTEGER then
      let v ← pyIntM t2.value
      let t3 ← flushAndGetToken
      if t3.id = TOKEN_RIGHT_BRACKET then
        flushToken
        pure (some v)
      else pvError "expected \x27]\x27"
    else pvError "integer value expected"
  else pure none

/-- PvParser.pv_single_count: optional array count, default 1. -/
def pvSingleCount : PvM Bool := do
  let c ← pvSingleIndexOrCount
  modifyPS (fun s => { s with singleCount := c.getD 1 })
  pure true

/-- PvParser.pv_single_head. -/
def pvSingleHead : PvM Bool := do
  let a ← pvSingleStart
  if a then
    let b ← pvSingleType
    if b then
      let c ← pvSingleName
      if c then pvSingleCount else pure false
    else pure false
  else pure false

/-- PvParser.pv_single_equals: mandatory `=`. -/
def pvSingleEquals : PvM Bool := do
  let t ← getToken
  if t.id = TOKEN_EQUALS then
    flushToken
    pure true
  else pvError "\x27=\x27 expected"

/-- PvParser.pv_single_index: optional value index. -/
def pvSingleIndex : PvM Bool := do
  let i ← pvSingleIndexOrCount
  match i with
  | some v => modifyPS (fun s => { s with singleIndexList := s.singleIndexList ++ [v] })
  | none => pure ()
  pure true

/-- PvParser.pv_single_value: mandatory integer, float or string value. -/
def pvSingleValue : PvM Bool := do
  let t ← getToken
  if t.isIn [TOKEN_INTEGER, TOKEN_FLOAT, TOKEN_STRING] then
    modifyPS (fun s => { s with singleValueList := s.singleValueList ++ [t.value] })
    flushToken
    pure true
  else pvError "expected string, float or integer value"

/-- PvParser.pv_single_scale: optional scale factor or unit.  The two
membership tests on the scale operand are the Python expressions
`token in [TOKEN_INTEGER, ...]` comparing a PvToken object against ints
(see pyObjInIntList). -/
def pvSingleScale : PvM Bool := do
  let t ← getToken
  if t.id = TOKEN_TIMES then
    let t2 ← flushAndGetToken
    if pyObjInIntList t2 [TOKEN_INTEGER, TOKEN_FLOAT] then flushToken
    else pvError "expected integer or float value"
  else
    let t1b ← getToken
    if t1b.id = TOKEN_DIVIDED then
      let t2 ← flushAndGetToken
      if pyObjInIntList t2 [TOKEN_INTEGER, TOKEN_FLOAT, TOKEN_UNIT] then flushToken
      else pvError "expected integer/float value or unit qualifier"
    else
      let t3 ← getToken
      if pyObjInIntList t3 [TOKEN_INTEGER, TOKEN_FLOAT, TOKEN_UNIT] then flushToken
  pure true

/-- PvParser.pv_single_individual_value: index, value, scale (with
Python short-circuit `and`). -/
def pvSingleIndividualValue : PvM Bool := do
  let a ← pvSingleIndex
  if a then
    let b ← pvSingleValue
    if b then pvSingleScale else pure false
  else pure false

/-- PvParser.pv_single_value_list: comma-separated list of values.  The
fuel bounds the number of loop iterations; the Python loop terminates
because every iteration consumes at least one token. -/
def pvSingleValueList : Nat → PvM Bool
  | 0 => pure true
  | fuel + 1 => do
    let v ← pvSingleIndividualValue
    if v then
      let t ← getToken
      if t.id = TOKEN_COMMA then
        flushToken
        pvSingleValueList fuel
      else pure true
    else pure true

/-- PvParser.pv_single_body: one value, or a brace-delimited list. -/
def pvSingleBody (fuel : Nat) : PvM Bool := do
  let t ← getToken
  if t.id = TOKEN_LEFT_BRACE then
    flushToken
    let _ ← pvSingleValueList fuel
    let t2 ← getToken
    if t2.id = TOKEN_RIGHT_BRACE then
      flushToken
      pure true
    else pvError "expected \x27\x7d\x27"
  else pvSingleIndividualValue

/-- PvParser.pv_single: a full single statement. -/
def pvSingle (fuel : Nat) : PvM Bool := do
  clearSingle
  let h ← pvSingleHead
  if h then
    let e ← pvSingleEquals
    if e then
      let b ← pvSingleBody fuel
      if b then
        let t ← getToken
        if t.id = TOKEN_SEMICOLON then
          checkSingle
          flushToken
          pure true
        else pvError "expected \x27;\x27"
      else pure false
    else pure false
  else pure false

/-- PvParser.pv_group_head: the `group` keyword. -/
def pvGroupHead : PvM Bool := do
  let t ← getToken
  if t.id = TOKEN_GROUP then
    flushToken
    pure true
  else pure false

/-- PvParser.pv_group_body: a possibly empty run of single statements. -/
def pvGroupBody : Nat → PvM Bool
  | 0 => pure true
  | fuel + 1 => do
    let s ← pvSingle fuel
    if s then pvGroupBody fuel else pure true

/-- PvParser.pv_group_tail: optional `;`. -/
def pvGroupTail : PvM Unit := do
  let t ← getToken
  if t.id = TOKEN_SEMICOLON then flushToken

/-- PvParser.pv_group.  When the head matched but no left brace follows,
the Python function falls off its end and returns None (falsy), embedded
here as false. -/
def pvGroup (fuel : Nat) : PvM Bool := do
  let h ← pvGroupHead
  if h then
    let t ← getToken
    if t.id = TOKEN_LEFT_BRACE then
      flushToken
      let _ ← pvGroupBody fuel
      pvGroupTail
      let t2 ← getToken
      if t2.id = TOKEN_RIGHT_BRACE then
        flushToken
        pure true
      else pvError ""
    else pure false
  else pure false

/-- PvParser.pv_sleep: `sleep` with an optional time operand; a missing
operand with the terminator present warns instead of raising. -/
def pvSleep : PvM Bool := do
  let t ← getToken
  if t.id = TOKEN_SLEEP then
    let t2 ← flushAndGetToken
    if t2.id = TOKEN_INTEGER ∨ t2.id = TOKEN_FLOAT then
      let t3 ← flushAndGetToken
      if t3.id = TOKEN_SEMICOLON then flushToken
      else pvError "expected \x27;\x27"
    else if t2.id = TOKEN_SEMICOLON then
      pvWarning "no time specified in sleep"
      flushToken
    else pvError "expected integer or float value"
    pure true
  else pure false

/-- PvParser.pv_item: group, sleep or single, tried in that order; EOF
ends the item list; anything else is a syntax error. -/
def pvItem (fuel : Nat) : PvM Bool := do
  let g ← pvGroup fuel
  if g then pure true
  else
    let sl ← pvSleep
    if sl then pure true
    else
      let si ← pvSingle fuel
      if si then pure true
      else
        let t ← getToken
        if t.id = TOKEN_EOF then pure false
        else pvError ""

-- ==========================================================================
-- Top-level file loop and error recovery (pvparser.py, pv_file)
-- ==========================================================================

/-- The except-branch of the pv_file loop: print the exception message,
clear the lookahead cell, reset the per-statement scratch state and
discard the lexer's buffered tokens. -/
def recoverState (s : PState) (m : String) : PState :=
  { s with
    output := s.output ++ [m],
    token := PvToken.mk TOKEN_NONE "none",
    singleDataType := TYPE_NONE, singleName := "", singleCount := 1,
    singleValueList := [], singleIndexList := [],
    lex := lexFlush s.lex }

/-- The while-loop of PvParser.pv_file: run pv_item until it returns
False; a PvSyntaxError is caught and recovered from; a ValueError
propagates.  The outer fuel bounds the number of loop iterations (none
means the fuel ran out); g is the fuel passed to pv_item. -/
def pvFileLoop (g : Nat) : Nat → PState → Except PvErr (Option PState)
  | 0, _ => .ok none
  | fuel + 1, s =>
    match pvItem g s with
    | .ok (true, s2) => pvFileLoop g fuel s2
    | .ok (false, s2) => .ok (some s2)
    | .error (.synErr m, s2) => pvFileLoop g fuel (recoverState s2 m)
    | .error (.valErr m, _) => .error (.valErr m)

/-- PvParser.pv_file after a successful open: run the item loop and
return True together with the printed diagnostics. -/
def pvFile (g fuel : Nat) (s : PState) : Except PvErr (Option (List String × Bool)) :=
  match pvFileLoop g fuel s with
  | .ok (some s2) => .ok (some (s2.output, true))
  | .ok none => .ok none
  | .error e => .error e

/-- Parser state right after opening a file: fresh lexer, empty lookahead
cell, cleared scratch state (PvParser.__init__ plus pv_file's open). -/
def initState (fname : String) (lines : List String) : PState :=
  { lex := { tokenList := [], lineNumber := 0, lastLine := "" },
    input := lines, fileName := fname,
    token := PvToken.mk TOKEN_NONE "none",
    singleDataType := TYPE_NONE, singleName := "", singleCount := 1,
    singleValueList := [], singleIndexList := [],
    output := [] }

/-- Run pv_item once on a one-line file; return the result and the
printed diagnostics when no exception is raised. -/
def runItemOut (fname line : String) : Option (Bool × List String) :=
  match pvItem 50 (initState fname [line]) with
  | .ok (b, s) => some (b, s.output)
  | .error _ => none

/-- Run pv_item once on a one-line file; return the exception it raises,
if any. -/
def runItemErr (fname line : String) : Option PvErr :=
  match pvItem 50 (initState fname [line]) with
  | .ok _ => none
  | .error (e, _) => some e

-- ==========================================================================
-- Helper definitions for the theorems
-- ==========================================================================

/-- Whether a parser computation raised PvSyntaxError. -/
def raisesSyn {α : Type} (r : Except (PvErr × PState) (α × PState)) : Bool :=
  match r with
  | .error (.synErr _, _) => true
  | _ => false

/-- Diagnostics printed by a single pv_item run on a one-line file,
whether or not it raised. -/
def runWarns (fname line : String) : List String :=
  match pvItem 50 (initState fname [line]) with
  | .ok (_, s) => s.output
  | .error (_, s) => s.output

/-- The eight reserved type keywords. -/
def typeWords : List String :=
  ["string", "int", "short", "float", "enum", "char", "long", "double"]

/-- The ten reserved unit words. -/
def unitWords : List String :=
  ["arcsec", "deg", "microns", "um", "millimeters", "millimetres", "mm",
   "meters", "metres", "m"]

-- ==========================================================================
-- Theorems for the claims
-- ==========================================================================

/-- C5: every reserved type keyword, reserved unit word and the keywords
group and sleep lex, as a standalone word, to a single token of the
corresponding reserved kind (TOKEN_TYPE, TOKEN_UNIT, TOKEN_GROUP,
TOKEN_SLEEP) and never to the generic name kind TOKEN_PVNAME, because the
reserved patterns precede the name pattern in the ordered table. -/
theorem c5_reserved_words_lex_reserved :
    (typeWords.all fun w => getTokenList w = [PvToken.mk TOKEN_TYPE w]) = true
    ∧ (unitWords.all fun w => getTokenList w = [PvToken.mk TOKEN_UNIT w]) = true
    ∧ getTokenList "group" = [PvToken.mk TOKEN_GROUP "group"]
    ∧ getTokenList "sleep" = [PvToken.mk TOKEN_SLEEP "sleep"]
    ∧ ((typeWords ++ unitWords ++ ["group", "sleep"]).all fun w =>
        (getTokenList w).all fun t => ! t.matchId TOKEN_PVNAME) = true := by
  exact ⟨by decide, by decide, by decide, by decide, by decide⟩

/-- C9: a generic name beginning with a reserved word is split: the
reserved patterns carry no word boundary and are tried before the name
pattern, so the reserved prefix is matched alone; sleepy lexes as
SLEEP(sleep) PVNAME(y) and max as UNIT(m) PVNAME(ax). -/
theorem c9_reserved_prefix_splits_names :
    getTokenList "sleepy" =
      [PvToken.mk TOKEN_SLEEP "sleep", PvToken.mk TOKEN_PVNAME "y"]
    ∧ getTokenList "max" =
      [PvToken.mk TOKEN_UNIT "m", PvToken.mk TOKEN_PVNAME "ax"] := by
  exact ⟨by decide, by decide⟩

/-- C8: parsing `sleep;` emits exactly one warning, no time specified in
sleep, raises no error, pv_sleep returns True (so pv_item returns True)
and the whole one-line file completes normally. -/
theorem c8_sleep_missing_time_warns :
    runItemOut "f" "sleep;" =
      some (true, [pvWarningMsg "f" 1 "no time specified in sleep" "sleep;"])
    ∧ runItemErr "f" "sleep;" = none
    ∧ pvFile 50 10 (initState "f" ["sleep;"]) =
      .ok (some ([pvWarningMsg "f" 1 "no time specified in sleep" "sleep;"], true)) := by
  exact ⟨by decide, by decide, by rfl⟩

/-- Parser state at the point where pv_single_scale starts on the input
`* 2 ;`: the lookahead cell holds the `*` token and the lexer has the
rest of the line buffered. -/
def scaleTimesState : PState :=
  { initState "f" [] with
      token := PvToken.mk TOKEN_TIMES "*",
      lex := { tokenList := [PvToken.mk TOKEN_INTEGER "2", PvToken.mk TOKEN_SEMICOLON ";"],
               lineNumber := 1, lastLine := "pv:name = 5 * 2;" } }

/-- C1 (the code contradicts it): pv_single_scale never accepts a
non-empty scale.  Its operand checks are Python `token in [TOKEN_...]`
membership tests comparing the PvToken object against ints, which are
always False, so `* number` and `/ ...` raise PvSyntaxError inside
pv_single_scale, and a bare number or unit scale is left unconsumed so
the statement then fails at the `;` check of pv_single. -/
theorem c1_scale_always_rejected :
    raisesSyn (pvSingleScale scaleTimesState) = true
    ∧ runItemErr "f" "pv:name = 5 * 2;" =
      some (.synErr "Error: at \x272\x27, file f, line 1 -> expected integer or float value\n>> pv:name = 5 * 2;")
    ∧ runItemErr "f" "pv:name = 5 / mm;" =
      some (.synErr "Error: at \x27mm\x27, file f, line 1 -> expected integer/float value or unit qualifier\n>> pv:name = 5 / mm;")
    ∧ runItemErr "f" "pv:name = 5 deg;" =
      some (.synErr "Error: at \x27deg\x27, file f, line 1 -> expected \x27;\x27\n>> pv:name = 5 deg;") := by
  exact ⟨by rfl, by decide, by decide, by decide⟩

/-- C4 (the code contradicts it): the grammar-well-formed single
statement `pv:name = 5 2;` (value 5 with bare integer scale 2) makes
pv_single raise PvSyntaxError at the `;` check instead of consuming
through the terminating `;` and returning True, because pv_single_scale
never consumes the bare scale token. -/
theorem c4_wellformed_single_raises :
    runItemErr "f" "pv:name = 5 2;" =
      some (.synErr "Error: at \x272\x27, file f, line 1 -> expected \x27;\x27\n>> pv:name = 5 2;")
    ∧ runItemOut "f" "pv:name = 5 2;" = none := by
  exact ⟨by decide, by decide⟩

def c2line : String := "string pv:name = 5;"

/-- The type-mismatch warning text printed while checking c2line. -/
def c2tm : String := pvWarningMsg "f" 1 "type mismatch" c2line

/-- C2 counterexample: parsing `string pv:name = 5;` does not emit
exactly one type-mismatch warning. -/
theorem c2_not_exactly_one_warning :
    ¬ ((runWarns "f" c2line).count c2tm = 1) := by
  decide

/-- C2 amended: for declared string, each collected value is checked
against int() and against float() independently, warning once per
successful parse (and with no break across values); `string pv:name = 5;`
therefore emits exactly two type-mismatch warnings and parses with no
error. -/
theorem c2_two_type_mismatch_warnings :
    runItemOut "f" c2line = some (true, [c2tm, c2tm]) := by
  decide

def c3line : String := "pv:name[3] = \x7b[0]1,[1]2,[2]3\x7d;"

set_option smartUnfolding false in
set_option maxHeartbeats 2000000 in
/-- C3 counterexample: parsing `pv:name[3] = {[0]1,[1]2,[2]3};` does not
produce an empty diagnostic stream. -/
theorem c3_not_diagnostic_free :
    ¬ (runItemOut "f" c3line = some (true, [])) := by
  decide

set_option smartUnfolding false in
set_option maxHeartbeats 2000000 in
/-- C3 amended: the statement parses with no syntax error, but since it
declares no type the semantic check emits exactly one warning, type not
defined (and no other warning). -/
theorem c3_exactly_type_not_defined :
    runItemOut "f" c3line =
      some (true, [pvWarningMsg "f" 1 "type not defined" c3line]) := by
  decide

/-- C7: once the input stream is exhausted (no lines remain and no tokens
are buffered), every successive call to next_token returns a token of
kind TOKEN_EOF, with the buffer and the stream staying empty; next_token
is a total function, so no call raises. -/
theorem c7_eof_idempotent (lex : LexState) (h : lex.tokenList = []) (n : Nat) :
    (callChain lex [] n).1 = PvToken.mk TOKEN_EOF ""
    ∧ (callChain lex [] n).2.1.tokenList = []
    ∧ (callChain lex [] n).2.2 = [] := by
  induction n generalizing lex with
  | zero =>
    simp [callChain, nextToken, h, fetchLine, List.isEmpty]
  | succ n ih =>
    have h1 : (nextToken lex []).2.1.tokenList = [] := by
      simp [nextToken, h, fetchLine, List.isEmpty]
    have h2 : (nextToken lex []).2.2 = [] := by
      simp [nextToken, h, fetchLine, List.isEmpty]
    have h3 : callChain lex [] (n + 1) = callChain (nextToken lex []).2.1 [] n := by
      simp only [callChain]
      rw [h2]
    rw [h3]
    exact ih _ h1

/-- Witness for C7 at a concrete lexer state: the third successive call
after exhaustion still returns EOF. -/
theorem c7_eof_idempotent_witness :
    (callChain (LexState.mk [] 0 "") [] 2).1 = PvToken.mk TOKEN_EOF "" :=
  (c7_eof_idempotent (LexState.mk [] 0 "") rfl 2).1

/-- Holds when a pv_file loop result is not an escaping PvSyntaxError
(the only exception the loop's except-clause catches). -/
def noSynEscape : Except PvErr (Option PState) → Prop
  | .error (.synErr _) => False
  | _ => True

/-- No PvSyntaxError ever escapes the pv_file item loop: every raise is
caught and recovered from. -/
theorem pvFileLoop_no_syn (g : Nat) : ∀ f s, noSynEscape (pvFileLoop g f s) := by
  intro f
  induction f with
  | zero =>
    intro s
    simp [pvFileLoop, noSynEscape]
  | succ n ih =>
    intro s
    simp only [pvFileLoop]
    cases hh : pvItem g s with
    | ok p =>
      obtain ⟨b, s2⟩ := p
      cases b
      · simp [noSynEscape]
      · exact ih s2
    | error e =>
      obtain ⟨err, s2⟩ := e
      cases err with
      | synErr m => exact ih (recoverState s2 m)
      | valErr m => simp [noSynEscape]

/-- Whenever pv_file completes the file, it returns True. -/
theorem pvFile_ok_true (g f : Nat) (s : PState) (out : List String) (b : Bool)
    (h : pvFile g f s = .ok (some (out, b))) : b = true := by
  unfold pvFile at h
  cases hh : pvFileLoop g f s with
  | ok o =>
    cases o with
    | none => rw [hh] at h; simp at h
    | some st => rw [hh] at h; simp at h; exact h.right
  | error e => rw [hh] at h; simp at h

/-- C6: when pv_item raises PvSyntaxError with message m from (mutated)
state s2, one iteration of the pv_file loop continues from the recovered
state, which has the message printed (appended to the output), the
lookahead cell cleared, the lexer buffer discarded and the per-statement
scratch state reset; no PvSyntaxError ever escapes the loop, and a
completed pv_file returns True. -/
theorem c6_recovery (g fuel : Nat) (s s2 : PState) (m : String)
    (h : pvItem g s = .error (.synErr m, s2)) :
    pvFileLoop g (fuel + 1) s = pvFileLoop g fuel (recoverState s2 m)
    ∧ (recoverState s2 m).output = s2.output ++ [m]
    ∧ (recoverState s2 m).token = PvToken.mk TOKEN_NONE "none"
    ∧ (recoverState s2 m).lex.tokenList = []
    ∧ (recoverState s2 m).singleDataType = TYPE_NONE
    ∧ (recoverState s2 m).singleName = ""
    ∧ (recoverState s2 m).singleCount = 1
    ∧ (recoverState s2 m).singleValueList = []
    ∧ (recoverState s2 m).singleIndexList = []
    ∧ (∀ f2 s3, noSynEscape (pvFileLoop g f2 s3))
    ∧ (∀ f2 s3 out b, pvFile g f2 s3 = .ok (some (out, b)) → b = true) := by
  refine ⟨?_, rfl, rfl, rfl, rfl, rfl, rfl, rfl, rfl, pvFileLoop_no_syn g, ?_⟩
  · simp only [pvFileLoop, h]
  · intro f2 s3 out b hb
    exact pvFile_ok_true g f2 s3 out b hb

/-- The two-line file used to witness C6: the first line is missing its
equals sign and raises; the second parses cleanly. -/
def c6input : List String := ["int pv:name 5;", "int a:b = 1;"]

/-- The message of the PvSyntaxError raised on the first item of
c6input. -/
def c6errMsg : String :=
  match pvItem 50 (initState "f" c6input) with
  | .error (.synErr m, _) => m
  | _ => ""

/-- The parser state at the moment that PvSyntaxError is raised. -/
def c6errState : PState :=
  match pvItem 50 (initState "f" c6input) with
  | .error (_, s) => s
  | .ok (_, s) => s

set_option smartUnfolding false in
/-- Witness for C6: on c6input the first pv_item raises, and the loop
iteration continues from the recovered state. -/
theorem c6_recovery_witness :
    pvFileLoop 50 4 (initState "f" c6input) =
      pvFileLoop 50 3 (recoverState c6errState c6errMsg) :=
  (c6_recovery 50 3 (initState "f" c6input) c6errState c6errMsg (by rfl)).1

-- ==========================================================================
-- C10: hexadecimal literals lex as TOKEN_INTEGER but fail base-10 int()
-- ==========================================================================

/-- The text of a hexadecimal literal as accepted by the lexer pattern:
optional minus sign, 0, x or X, then hex digits. -/
def hexStr (neg : Bool) (x : Char) (ds : List Char) : String :=
  String.mk ((if neg then ['-'] else []) ++ '0' :: x :: ds)

/-- Parser state after parsing `int pv:name = <s>;` up to check_single:
declared integer type, one collected value s. -/
def hexCheckState (s : String) : PState :=
  { initState "f" [] with
      lex := { tokenList := [], lineNumber := 1, lastLine := "" },
      singleDataType := TYPE_INTEGER, singleName := "pv:name",
      singleCount := 1, singleValueList := [s], singleIndexList := [] }

theorem takeWhile_eq_self_of_all (p : Char → Bool) :
    ∀ l : List Char, (∀ c ∈ l, p c = true) → l.takeWhile p = l := by
  intro l h
  induction l with
  | nil => rfl
  | cons c r ih =>
    have hc : p c = true := h c (List.mem_cons_self c r)
    have hr := ih (fun d hd => h d (List.mem_cons_of_mem c hd))
    simp [List.takeWhile_cons, hc, hr]

theorem dropWhile_eq_self_of_all (p : Char → Bool) (l : List Char)
    (h : ∀ c ∈ l, p c = false) : l.dropWhile p = l := by
  cases l with
  | nil => rfl
  | cons c r =>
    have hc : p c = false := h c (List.mem_cons_self c r)
    simp [List.dropWhile_cons, hc]

theorem hex_not_space (c : Char) (h : isHexDigitChar c = true) :
    pyIsSpace c = false := by
  by_contra hs
  rw [Bool.not_eq_false] at hs
  simp only [pyIsSpace, decide_eq_true_eq] at hs
  rcases hs with h1 | h1 | h1 | h1 | h1 | h1 <;> subst h1 <;>
    exact absurd h (by decide)

theorem pyStripChars_eq_self (l : List Char) (h : ∀ c ∈ l, pyIsSpace c = false) :
    pyStripChars l = l := by
  unfold pyStripChars
  rw [dropWhile_eq_self_of_all _ l h]
  rw [dropWhile_eq_self_of_all _ l.reverse (fun c hc => h c (List.mem_reverse.mp hc))]
  exact List.reverse_reverse l

theorem hexStr_chars_not_space (neg : Bool) (x : Char) (ds : List Char)
    (hx : x = 'x' ∨ x = 'X') (hall : ∀ c ∈ ds, isHexDigitChar c = true) :
    ∀ c ∈ (if neg then ['-'] else []) ++ '0' :: x :: ds, pyIsSpace c = false := by
  intro c hc
  rcases List.mem_append.mp hc with h1 | h1
  · cases neg
    · simp at h1
    · simp at h1
      subst h1
      decide
  · rcases List.mem_cons.mp h1 with rfl | h2
    · decide
    · rcases List.mem_cons.mp h2 with rfl | h3
      · rcases hx with rfl | rfl <;> decide
      · exact hex_not_space c (hall c h3)

theorem pyIntOk_hexStr (neg : Bool) (x : Char) (ds : List Char)
    (hx : x = 'x' ∨ x = 'X') (hall : ∀ c ∈ ds, isHexDigitChar c = true) :
    pyIntOk (hexStr neg x ds) = false := by
  have hdig : (('0' :: x :: ds).all isDigitChar) = false := by
    rcases hx with rfl | rfl <;> simp [List.all_cons, isDigitChar]
  unfold pyIntOk pyIntVal hexStr
  rw [show (String.mk ((if neg then ['-'] else []) ++ '0' :: x :: ds)).data =
      (if neg then ['-'] else []) ++ '0' :: x :: ds from rfl]
  rw [pyStripChars_eq_self _ (hexStr_chars_not_space neg x ds hx hall)]
  cases neg
  · simp [pySplitSign, hdig]
  · simp [pySplitSign, hdig]

theorem tokenizeFrom_nil (f : Nat) : tokenizeFrom f [] = [] := by
  cases f <;> rfl

theorem firstMatch_hex (cs : List Char) (L : Nat) (h1 : matchWs cs = none)
    (h2 : matchHex cs = some L) :
    firstMatch lexerPatterns cs = some (L, TOKEN_INTEGER) := by
  simp [lexerPatterns, firstMatch, h1, h2]

/-- A line whose first pattern match is an INTEGER covering the whole
line tokenizes to that single token. -/
theorem tokenizeFrom_whole (f : Nat) (c : Char) (rest : List Char)
    (h : firstMatch lexerPatterns (c :: rest) = some (rest.length + 1, TOKEN_INTEGER)) :
    tokenizeFrom (f + 1) (c :: rest) = [PvToken.mk TOKEN_INTEGER (String.mk (c :: rest))] := by
  simp only [tokenizeFrom, h]
  simp [TOKEN_INTEGER, TOKEN_COMMENT, TOKEN_WHITESPACE, TOKEN_NUMBER,
    List.take_succ_cons, List.take_length, List.drop_succ_cons, List.drop_length,
    tokenizeFrom_nil]

theorem matchWs_cons (c : Char) (r : List Char) (h : pyIsSpace c = false) :
    matchWs (c :: r) = none := by
  simp [matchWs, List.takeWhile_cons, h]

theorem matchHexBody_hex (x : Char) (ds : List Char)
    (hx : x = 'x' ∨ x = 'X') (hne : ds ≠ [])
    (hall : ∀ c ∈ ds, isHexDigitChar c = true) :
    matchHexBody ('0' :: x :: ds) = some (2 + ds.length) := by
  have hpos : 0 < ds.length := List.length_pos.mpr hne
  have ht := takeWhile_eq_self_of_all isHexDigitChar ds hall
  rcases hx with rfl | rfl <;> simp [matchHexBody, ht, hpos]

theorem matchHex_hexStr_pos (x : Char) (ds : List Char)
    (hx : x = 'x' ∨ x = 'X') (hne : ds ≠ [])
    (hall : ∀ c ∈ ds, isHexDigitChar c = true) :
    matchHex ('0' :: x :: ds) = some ((x :: ds).length + 1) := by
  have hb := matchHexBody_hex x ds hx hne hall
  simp [matchHex, hb, List.length_cons]
  omega

theorem matchHex_hexStr_neg (x : Char) (ds : List Char)
    (hx : x = 'x' ∨ x = 'X') (hne : ds ≠ [])
    (hall : ∀ c ∈ ds, isHexDigitChar c = true) :
    matchHex ('-' :: '0' :: x :: ds) = some (('0' :: x :: ds).length + 1) := by
  have hb := matchHexBody_hex x ds hx hne hall
  simp [matchHex, List.tail_cons, hb, List.length_cons]
  omega

/-- check_single on a declared-integer statement whose single collected
value fails Python int(): exactly one type-mismatch warning text. -/
theorem checkSingleMsgs_int_mismatch (s : String) (h : pyIntOk s = false) :
    checkSingleMsgs (hexCheckState s) = ["type mismatch"] := by
  simp [checkSingleMsgs, hexCheckState, initState, TYPE_INTEGER, TYPE_NONE,
    TYPE_FLOAT, TYPE_STRING, h, List.find?]

/-- C10: for every hexadecimal literal (optional minus sign, 0x or 0X,
nonempty hex digits), the lexer produces a single TOKEN_INTEGER token for
the whole literal, yet Python base-10 int() rejects the text, so
check_single on a declared-integer single statement that collected the
literal emits a type-mismatch warning; concretely,
`int pv:name = 0x1A;` parses with exactly one type-mismatch warning. -/
theorem c10_hex_integer_token_type_mismatch (neg : Bool) (x : Char) (ds : List Char)
    (hx : x = 'x' ∨ x = 'X') (hne : ds ≠ [])
    (hall : ∀ c ∈ ds, isHexDigitChar c = true) :
    getTokenList (hexStr neg x ds) = [PvToken.mk TOKEN_INTEGER (hexStr neg x ds)]
    ∧ pyIntOk (hexStr neg x ds) = false
    ∧ checkSingleMsgs (hexCheckState (hexStr neg x ds)) = ["type mismatch"]
    ∧ runItemOut "f" "int pv:name = 0x1A;" =
        some (true, [pvWarningMsg "f" 1 "type mismatch" "int pv:name = 0x1A;"]) := by
  have hint := pyIntOk_hexStr neg x ds hx hall
  refine ⟨?_, hint, checkSingleMsgs_int_mismatch _ hint, by decide⟩
  cases neg
  · have hfm : firstMatch lexerPatterns ('0' :: x :: ds) =
        some ((x :: ds).length + 1, TOKEN_INTEGER) :=
      firstMatch_hex _ _ (matchWs_cons _ _ (by decide))
        (matchHex_hexStr_pos x ds hx hne hall)
    have hw := tokenizeFrom_whole ((x :: ds).length) '0' (x :: ds) hfm
    simpa [getTokenList, hexStr, List.length_cons] using hw
  · have hfm : firstMatch lexerPatterns ('-' :: '0' :: x :: ds) =
        some (('0' :: x :: ds).length + 1, TOKEN_INTEGER) :=
      firstMatch_hex _ _ (matchWs_cons _ _ (by decide))
        (matchHex_hexStr_neg x ds hx hne hall)
    have hw := tokenizeFrom_whole (('0' :: x :: ds).length) '-' ('0' :: x :: ds) hfm
    simpa [getTokenList, hexStr, List.length_cons] using hw

/-- Witness for C10 at the literal 0x1A. -/
theorem c10_hex_integer_token_type_mismatch_witness :
    getTokenList (hexStr false 'x' ['1', 'A']) =
      [PvToken.mk TOKEN_INTEGER (hexStr false 'x' ['1', 'A'])]
    ∧ pyIntOk (hexStr false 'x' ['1', 'A']) = false
    ∧ checkSingleMsgs (hexCheckState (hexStr false 'x' ['1', 'A'])) = ["type mismatch"]
    ∧ runItemOut "f" "int pv:name = 0x1A;" =
        some (true, [pvWarningMsg "f" 1 "type mismatch" "int pv:name = 0x1A;"]) :=
  c10_hex_integer_token_type_mismatch false 'x' ['1', 'A'] (Or.inl rfl)
    (by decide) (by decide)
